import Mathlib

/-!
# Verification of the ELB `Listener` resource wrapper

Shallow embedding of `phidata/aws/resource/elb/listener.py`.

The Python class `Listener(AwsResource)` performs CRUD operations against the
AWS elbv2 API.  We model:

* remote-API response records as a JSON-like value type `JVal`
  (the collaborator contract returns key-value records and lists; Python
  `None` does not occur inside response data per that contract, so `JVal`
  has no null constructor — `dict.get(k, default)` is modelled as an
  `Option`-returning lookup followed by `getD`);
* the remote control plane and the referenced `LoadBalancer` / `TargetGroup`
  resources as an oracle `AwsEnv` fixing the outcome of each remote call;
* the mutable field `self.active_resource` by explicit state passing: each
  operation returns an `OpResult` holding the return value, the new
  `active_resource`, and the trace of remote calls issued.
-/

/-- JSON-like values appearing in remote-API requests and responses. -/
inductive JVal where
  | str (s : String)
  | int (n : Int)
  | list (xs : List JVal)
  | dict (kvs : List (String × JVal))

/-- Python `d.get(k, None)` on a record: `some v` when `d` is a dict binding
`k` to `v`, else `none`.  (On a non-dict Python would raise; records coming
from the collaborator are always key-value dicts, so that branch never runs
in the source either.) -/
def pyGet (v : JVal) (k : String) : Option JVal :=
  match v with
  | JVal.dict kvs => (kvs.find? (fun p => p.1 == k)).map (fun p => p.2)
  | _ => none

/-- The two classes of exception distinguished by `_read`'s handlers:
`botocore.exceptions.ClientError` (the "not-found"-class remote error) and
any other exception. -/
inductive ReadErr where
  | clientError
  | otherError
deriving DecidableEq, Repr

/-- The value `_update` passes as `ListenerArn` to `modify_listener`.
In the source, `listener_arn = self.get_arn` stores the *bound method*
itself (the call parentheses are missing), so the value sent is either that
method object or — had the method been called — a string ARN. -/
inductive ListenerArnArg where
  | boundMethod
  | value (v : JVal)

/-- One remote call, as recorded in an operation's trace. -/
inductive RemoteCall where
  | lbGetArnCall
  | tgGetArnCall
  | createListener (lbArn : String) (args : List (String × JVal))
  | describeListeners (lbArn : String)
  | modifyListener (arnArg : ListenerArnArg) (args : List (String × JVal))
  | deleteListener (arnVal : JVal)

def isCreateCall : RemoteCall → Bool
  | RemoteCall.createListener _ _ => true
  | _ => false

def isDescribeCall : RemoteCall → Bool
  | RemoteCall.describeListeners _ => true
  | _ => false

def isModifyCall : RemoteCall → Bool
  | RemoteCall.modifyListener _ _ => true
  | _ => false

def isDeleteCall : RemoteCall → Bool
  | RemoteCall.deleteListener _ => true
  | _ => false

/-- Oracle for the outcomes of the remote calls an operation may issue:
the ARN returned by the referenced load balancer's / target group's
`get_arn`, and the response (`Except.ok`) or exception (`Except.error`) of
each elbv2 client call. -/
structure AwsEnv where
  lbGetArnResult : Option String
  tgGetArnResult : Option String
  describeOutcome : Except ReadErr JVal
  createOutcome : Except Unit JVal
  modifyOutcome : Except Unit JVal
  deleteOutcome : Except Unit JVal

/-- Result of one operation: the Python return value, the value of
`self.active_resource` on return, and the remote calls issued. -/
structure OpResult (α : Type) where
  ret : α
  active : Option JVal
  calls : List RemoteCall

/-- The `Listener` spec instance: its configuration fields plus the
mutable cache `active_resource`.  `load_balancer` and `target_group` are
weak references; only their presence matters here (resolution goes through
the `AwsEnv` oracle). -/
structure Listener where
  name : String
  load_balancer : Option Unit
  target_group : Option Unit
  load_balancer_arn : Option String
  protocol : Option String
  port : Option Int
  ssl_policy : Option String
  certificates : Option (List JVal)
  default_actions : Option (List JVal)
  alpn_policy : Option (List String)
  tags : Option (List JVal)
  active_resource : Option JVal

namespace Listener

/-- Resolution helper `get_load_balancer_arn`: the explicit `load_balancer_arn` field if set,
else the referenced load balancer's `get_arn` if a reference exists, else
`None`.  Returns the ARN together with the calls made. -/
def get_load_balancer_arn (l : Listener) (env : AwsEnv) :
    Option String × List RemoteCall :=
  match l.load_balancer_arn with
  | some arn => (some arn, [])
  | none =>
    match l.load_balancer with
    | some _ => (env.lbGetArnResult, [RemoteCall.lbGetArnCall])
    | none => (none, [])

/-- One conditional insertion into `not_null_args`: the entry `(k, v)` when
the field is set, nothing when it is `None`. -/
def optEntry (k : String) (v : Option JVal) : List (String × JVal) :=
  match v with
  | some j => [(k, j)]
  | none => []

/-- The `not_null_args` dict built by `_create` before the routing-action
resolution: the explicitly-set fields, in the source's insertion order. -/
def notNullArgsCreate (l : Listener) : List (String × JVal) :=
  optEntry "Protocol" (l.protocol.map JVal.str)
  ++ optEntry "Port" (l.port.map JVal.int)
  ++ optEntry "SslPolicy" (l.ssl_policy.map JVal.str)
  ++ optEntry "Certificates" (l.certificates.map JVal.list)
  ++ optEntry "AlpnPolicy" (l.alpn_policy.map (fun a => JVal.list (a.map JVal.str)))
  ++ optEntry "Tags" (l.tags.map JVal.list)

/-- The `not_null_args` dict built by `_update` (no `Tags`;
`DefaultActions` inserted between `Certificates` and `AlpnPolicy`,
as in the source). -/
def notNullArgsUpdate (l : Listener) : List (String × JVal) :=
  optEntry "Protocol" (l.protocol.map JVal.str)
  ++ optEntry "Port" (l.port.map JVal.int)
  ++ optEntry "SslPolicy" (l.ssl_policy.map JVal.str)
  ++ optEntry "Certificates" (l.certificates.map JVal.list)
  ++ optEntry "DefaultActions" (l.default_actions.map JVal.list)
  ++ optEntry "AlpnPolicy" (l.alpn_policy.map (fun a => JVal.list (a.map JVal.str)))

/-- The `try` block around `service_client.create_listener`: on success,
`create_response.get("Listeners", {})` is never Python `None` (no null
values occur in response data), so the `is not None` check holds and the
full response is cached; on an exception the cache is untouched and the
function falls through to `return False`. -/
def doCreateCall (l : Listener) (env : AwsEnv) (lbArn : String)
    (cs : List RemoteCall) (args : List (String × JVal)) : OpResult Bool :=
  match env.createOutcome with
  | Except.error _ =>
    ⟨false, l.active_resource, cs ++ [RemoteCall.createListener lbArn args]⟩
  | Except.ok resp =>
    ⟨true, some resp, cs ++ [RemoteCall.createListener lbArn args]⟩

/-- Embedding of `Listener._create`. -/
def _create (l : Listener) (env : AwsEnv) : OpResult Bool :=
  match get_load_balancer_arn l env with
  | (none, cs) =>
    -- `logger.error("Load balancer ARN not available"); return True`
    ⟨true, l.active_resource, cs⟩
  | (some lbArn, cs) =>
    let base := notNullArgsCreate l
    match l.default_actions with
    | some das =>
      doCreateCall l env lbArn cs (base ++ [("DefaultActions", JVal.list das)])
    | none =>
      match l.target_group with
      | some _ =>
        match env.tgGetArnResult with
        | none =>
          -- `logger.error("Target group ARN not available"); return False`
          ⟨false, l.active_resource, cs ++ [RemoteCall.tgGetArnCall]⟩
        | some tgArn =>
          doCreateCall l env lbArn (cs ++ [RemoteCall.tgGetArnCall])
            (base ++ [("DefaultActions", JVal.list
              [JVal.dict [("Type", JVal.str "forward"),
                          ("TargetGroupArn", JVal.str tgArn)]])])
      | none =>
        -- `print_warning("Neither target group nor default actions ...");
        --  return True`
        ⟨true, l.active_resource, cs⟩

/-- Embedding of `Listener._read`.  Unresolvable load-balancer ARN returns `None`
directly (cache untouched).  A non-empty `Listeners` list caches its first
element; an empty list caches `None`; an absent or non-list value leaves
the cache unchanged.  Both exception handlers fall through to
`return self.active_resource`. -/
def _read (l : Listener) (env : AwsEnv) : OpResult (Option JVal) :=
  match get_load_balancer_arn l env with
  | (none, cs) => ⟨none, l.active_resource, cs⟩
  | (some lbArn, cs) =>
    let cs' := cs ++ [RemoteCall.describeListeners lbArn]
    match env.describeOutcome with
    | Except.error ReadErr.clientError =>
      -- `except ClientError: logger.debug(...)` then
      -- `return self.active_resource`
      ⟨l.active_resource, l.active_resource, cs'⟩
    | Except.error ReadErr.otherError =>
      -- `except Exception: print_error(...)` then
      -- `return self.active_resource`
      ⟨l.active_resource, l.active_resource, cs'⟩
    | Except.ok resp =>
      match pyGet resp "Listeners" with
      | some (JVal.list resource_list) =>
        -- `resource_list[0] if len(resource_list) > 0 else None`
        ⟨resource_list.head?, resource_list.head?, cs'⟩
      | _ => ⟨l.active_resource, l.active_resource, cs'⟩

/-- Embedding of `Listener.get_arn`: read, then extract the `ListenerArn` field of the
returned record. -/
def get_arn (l : Listener) (env : AwsEnv) : OpResult (Option JVal) :=
  let r := _read l env
  match r.ret with
  | none => ⟨none, r.active, r.calls⟩
  | some rec => ⟨pyGet rec "ListenerArn", r.active, r.calls⟩

/-- Embedding of `Listener._delete`: clears `self.active_resource`, resolves the
listener ARN via `get_arn` (whose nested `_read` may set the cache again),
then calls `delete_listener`. -/
def _delete (l : Listener) (env : AwsEnv) : OpResult Bool :=
  let cleared : Listener := { l with active_resource := none }
  let g := get_arn cleared env
  match g.ret with
  | none =>
    -- `print_error("Listener ... not found."); return True`
    ⟨true, g.active, g.calls⟩
  | some arnVal =>
    match env.deleteOutcome with
    | Except.error _ => ⟨false, g.active, g.calls ++ [RemoteCall.deleteListener arnVal]⟩
    | Except.ok _ => ⟨true, g.active, g.calls ++ [RemoteCall.deleteListener arnVal]⟩

/-- Embedding of `Listener._update`.  The source reads `listener_arn = self.get_arn`
— the bound method, not a call — so `listener_arn` is never `None`, the
not-found branch is dead, no nested read happens, and `modify_listener` is
invoked with the method object as `ListenerArn`. -/
def _update (l : Listener) (env : AwsEnv) : OpResult Bool :=
  let listener_arn : Option ListenerArnArg := some ListenerArnArg.boundMethod
  match listener_arn with
  | none =>
    -- `print_error("Listener ... not found."); return True` — unreachable
    ⟨true, l.active_resource, []⟩
  | some arnArg =>
    match env.modifyOutcome with
    | Except.error _ =>
      ⟨false, l.active_resource,
        [RemoteCall.modifyListener arnArg (notNullArgsUpdate l)]⟩
    | Except.ok resp =>
      -- as in `_create`: `create_response.get("Listeners", {})` is never
      -- Python `None`, so the response is cached and True returned
      ⟨true, some resp,
        [RemoteCall.modifyListener arnArg (notNullArgsUpdate l)]⟩

end Listener

/-- The `ListenerArn`-extraction step of `get_arn` (lines 202–208) applied
to a cached `active_resource` value. -/
def cachedListenerArn (active : Option JVal) : Option JVal :=
  match active with
  | none => none
  | some r => pyGet r "ListenerArn"

/-- The `DefaultActions` entry of the first `create_listener` call in a
trace, when present. -/
def sentCreateActions (calls : List RemoteCall) : Option JVal :=
  match calls.find? isCreateCall with
  | some (RemoteCall.createListener _ args) =>
    (args.find? (fun p => p.1 == "DefaultActions")).map (fun p => p.2)
  | _ => none

/-- Whether a trace contains a `create_listener` call. -/
def hasCreateCall (calls : List RemoteCall) : Bool :=
  calls.any isCreateCall

/- Concrete fixtures used by witnesses and counterexamples. -/

/-- A listener record (port 443) as returned inside a `Listeners` list. -/
def L1rec : JVal :=
  JVal.dict [("ListenerArn", JVal.str "arn:aws:elb:listener/1"),
             ("Port", JVal.int 443)]

/-- A second listener record (port 8080). -/
def L2rec : JVal :=
  JVal.dict [("ListenerArn", JVal.str "arn:aws:elb:listener/2"),
             ("Port", JVal.int 8080)]

/-- A describe/create/modify response wrapping exactly `[L1rec]`. -/
def respOne : JVal := JVal.dict [("Listeners", JVal.list [L1rec])]

/-- A describe response wrapping `[L1rec, L2rec]`. -/
def respTwo : JVal := JVal.dict [("Listeners", JVal.list [L1rec, L2rec])]

/-- A describe response whose `Listeners` collection is empty. -/
def respEmpty : JVal := JVal.dict [("Listeners", JVal.list [])]

/-- A base spec instance: only `name` and the explicit `load_balancer_arn`
are set. -/
def lBase : Listener :=
  { name := "test-listener"
    load_balancer := none
    target_group := none
    load_balancer_arn := some "arn:aws:elb:loadbalancer/1"
    protocol := none
    port := none
    ssl_policy := none
    certificates := none
    default_actions := none
    alpn_policy := none
    tags := none
    active_resource := none }

/-- A base oracle: lone existing listener `L1rec`, every remote call
succeeding. -/
def envBase : AwsEnv :=
  { lbGetArnResult := none
    tgGetArnResult := none
    describeOutcome := Except.ok respOne
    createOutcome := Except.ok respOne
    modifyOutcome := Except.ok respOne
    deleteOutcome := Except.ok (JVal.dict []) }

/-- Oracle for C1's failing input: no listener exists for the load
balancer (describe would return an empty collection), and
`modify_listener` raises, as boto3 does when `ListenerArn` is not a
string. -/
def envC1 : AwsEnv :=
  { envBase with
    describeOutcome := Except.ok respEmpty
    modifyOutcome := Except.error () }

/-- Spec `lBase` with a previously cached `active_resource`. -/
def lCached : Listener := { lBase with active_resource := some L1rec }

/-- Oracle whose describe response has an empty `Listeners` collection. -/
def envEmpty : AwsEnv := { envBase with describeOutcome := Except.ok respEmpty }

/-- Oracle whose describe call raises the "not-found"-class `ClientError`. -/
def envClientErr : AwsEnv :=
  { envBase with describeOutcome := Except.error ReadErr.clientError }

/-- Oracle whose describe response holds two listeners. -/
def envTwo : AwsEnv := { envBase with describeOutcome := Except.ok respTwo }

/-- Spec `lBase` configured for port 80 / HTTP (mismatching `L1rec`'s port 443). -/
def lPort80 : Listener := { lBase with port := some 80, protocol := some "HTTP" }

/-- An opaque routing action used as an explicit `default_actions`
entry. -/
def actA : JVal := JVal.dict [("Type", JVal.str "fixed-response")]

/-- Spec `lBase` with explicit `default_actions := [actA]`. -/
def lActions : Listener := { lBase with default_actions := some [actA] }

/-- Spec `lBase` with a target-group reference and no default actions. -/
def lTG : Listener := { lBase with target_group := some () }

/-- A spec with no explicit load-balancer ARN and no load-balancer
reference: its load-balancer ARN is unresolvable. -/
def lNoArn : Listener := { lBase with load_balancer_arn := none }

/- Helper lemmas about the embedding. -/

/-- ARN resolution issues no elbv2 API call. -/
theorem glba_calls (l : Listener) (env : AwsEnv) :
    (Listener.get_load_balancer_arn l env).2 = [] ∨
    (Listener.get_load_balancer_arn l env).2 = [RemoteCall.lbGetArnCall] := by
  unfold Listener.get_load_balancer_arn
  cases l.load_balancer_arn with
  | some a => left; rfl
  | none =>
    cases l.load_balancer with
    | some u => right; rfl
    | none => left; rfl

/-- Every entry produced by `optEntry k v` has key `k`. -/
theorem optEntry_keys (k : String) (v : Option JVal) (p : String × JVal)
    (hp : p ∈ Listener.optEntry k v) : p.1 = k := by
  cases v with
  | none => simp [Listener.optEntry] at hp
  | some j =>
    simp [Listener.optEntry] at hp
    rw [hp]

/-- The base `_create` args never contain a `DefaultActions` entry. -/
theorem notNullArgsCreate_no_actions (l : Listener) :
    (Listener.notNullArgsCreate l).find? (fun p => p.1 == "DefaultActions")
      = none := by
  rw [List.find?_eq_none]
  intro p hp
  unfold Listener.notNullArgsCreate at hp
  simp only [List.mem_append] at hp
  rcases hp with ((((h | h) | h) | h) | h) | h <;>
    · have hk := optEntry_keys _ _ _ h
      simp [hk]

/-- Helper fact: `doCreateCall` appends exactly one `create_listener` call. -/
theorem doCreateCall_calls (l : Listener) (env : AwsEnv) (lbArn : String)
    (cs : List RemoteCall) (args : List (String × JVal)) :
    (Listener.doCreateCall l env lbArn cs args).calls =
      cs ++ [RemoteCall.createListener lbArn args] := by
  unfold Listener.doCreateCall
  cases env.createOutcome <;> rfl

/- Claim theorems. -/

/-- Claim C1 (code bug): The claim: `_update` first obtains a listener ARN
via `read`, no-ops with True when none is obtainable, and calls
`modify_listener` only with an obtained ARN.  The code instead assigns the
*bound method* `self.get_arn` without calling it: the not-found branch is
dead, no read (describe) ever happens, and every `_update` issues exactly
one `modify_listener` call whose `ListenerArn` is the method object.  At
the failing input (no listener exists; boto3 rejects the non-string ARN)
`_update` returns False where the claim requires True with no modify
call. -/
theorem C1_update_bug :
    (∀ (l : Listener) (env : AwsEnv),
      (Listener._update l env).calls =
        [RemoteCall.modifyListener ListenerArnArg.boundMethod
          (Listener.notNullArgsUpdate l)] ∧
      ((Listener._update l env).calls.filter isDescribeCall) = []) ∧
    (Listener._update lBase envC1).ret = false := by
  refine ⟨fun l env => ?_, rfl⟩
  cases henv : env.modifyOutcome <;>
    simp [Listener._update, henv, isDescribeCall]

/-- Claim C2 (counterexample):  With `L1rec` cached and a describe response
whose `Listeners` collection is empty, `_read` does *not* return the
previously cached value unchanged: it clears the cache and returns
`none`. -/
theorem C2_counterexample :
    lCached.active_resource = some L1rec ∧
    (Listener._read lCached envEmpty).ret = none ∧
    (Listener._read lCached envEmpty).active = none ∧
    (some L1rec : Option JVal) ≠ none :=
  ⟨rfl, rfl, rfl, fun h => Option.noConfusion h⟩

/-- Claim C2 (amended):  `_read` caches and returns the first record when
the describe response's `Listeners` collection is non-empty; when that
collection is present but empty it *clears* the cache and returns `none`;
only when the collection is absent (no `Listeners` key, or not a list)
does it leave the cache unchanged and return the previously cached
value. -/
theorem C2_read_cache (l : Listener) (env : AwsEnv) (lbArn : String)
    (resp : JVal)
    (hres : (Listener.get_load_balancer_arn l env).1 = some lbArn)
    (hok : env.describeOutcome = Except.ok resp) :
    (∀ x xs, pyGet resp "Listeners" = some (JVal.list (x :: xs)) →
      (Listener._read l env).ret = some x ∧
      (Listener._read l env).active = some x) ∧
    (pyGet resp "Listeners" = some (JVal.list []) →
      (Listener._read l env).ret = none ∧
      (Listener._read l env).active = none) ∧
    ((∀ xs, pyGet resp "Listeners" ≠ some (JVal.list xs)) →
      (Listener._read l env).ret = l.active_resource ∧
      (Listener._read l env).active = l.active_resource) := by
  cases hg : Listener.get_load_balancer_arn l env with
  | mk arnOpt cs =>
    rw [hg] at hres
    simp only at hres
    subst hres
    refine ⟨fun x xs hx => ?_, fun hx => ?_, fun hx => ?_⟩
    · simp [Listener._read, hg, hok, hx]
    · simp [Listener._read, hg, hok, hx]
    · cases hp : pyGet resp "Listeners" with
      | none => simp [Listener._read, hg, hok, hp]
      | some v =>
        cases v with
        | str s => simp [Listener._read, hg, hok, hp]
        | int n => simp [Listener._read, hg, hok, hp]
        | list ys => exact absurd hp (hx ys)
        | dict kvs => simp [Listener._read, hg, hok, hp]

/-- Witness for C2: at the concrete base instance with a one-listener
response, the hypotheses hold and `_read` caches and returns `L1rec`. -/
theorem C2_read_cache_witness :
    (Listener.get_load_balancer_arn lBase envBase).1
        = some "arn:aws:elb:loadbalancer/1" ∧
    envBase.describeOutcome = Except.ok respOne ∧
    (Listener._read lBase envBase).ret = some L1rec ∧
    (Listener._read lBase envBase).active = some L1rec := by
  refine ⟨rfl, rfl, ?_, ?_⟩
  · exact ((C2_read_cache lBase envBase _ respOne rfl rfl).1 L1rec [] rfl).1
  · exact ((C2_read_cache lBase envBase _ respOne rfl rfl).1 L1rec [] rfl).2

/-- Claim C3 (counterexample):  Deleting the base instance when the remote
listener exists succeeds, yet the cache is *not* cleared on return: the
nested read repopulated it with `L1rec`. -/
theorem C3_counterexample :
    (Listener._delete lBase envBase).ret = true ∧
    (Listener._delete lBase envBase).active = some L1rec ∧
    (some L1rec : Option JVal) ≠ none :=
  ⟨rfl, rfl, fun h => Option.noConfusion h⟩

/-- Claim C3 (amended):  `_delete` clears the cache unconditionally before
ARN resolution (the nested read runs on the cleared instance), but that
read may repopulate it: the cache when `_delete` returns is exactly the
cache left by `_read` on the cleared instance — `none` when nothing was
found, the found record otherwise. -/
theorem C3_delete_cache (l : Listener) (env : AwsEnv) :
    (Listener._delete l env).active =
      (Listener._read { l with active_resource := none } env).active := by
  simp only [Listener._delete, Listener.get_arn]
  cases hr : (Listener._read { l with active_resource := none } env).ret with
  | none => simp [hr]
  | some rec =>
    cases hp : pyGet rec "ListenerArn" with
    | none => simp [hr, hp]
    | some a =>
      cases hd : env.deleteOutcome <;> simp [hr, hp, hd]

/-- Claim C4 (counterexample):  A "not-found"-class (`ClientError`) remote
error during `_read` does not yield "no active resource": with `L1rec`
previously cached, `_read` returns `some L1rec`. -/
theorem C4_counterexample :
    lCached.active_resource = some L1rec ∧
    (Listener._read lCached envClientErr).ret = some L1rec ∧
    (some L1rec : Option JVal) ≠ none :=
  ⟨rfl, rfl, fun h => Option.noConfusion h⟩

/-- Claim C4 (amended):  Both exception handlers of `_read` fall through to
`return self.active_resource`: a `ClientError` is swallowed (debug log
only) and any other remote error is logged, and in both cases the cache is
left unchanged and `_read` returns the previously cached value — which is
"no result" only when nothing was cached. -/
theorem C4_read_error (l : Listener) (env : AwsEnv) (lbArn : String)
    (e : ReadErr)
    (hres : (Listener.get_load_balancer_arn l env).1 = some lbArn)
    (herr : env.describeOutcome = Except.error e) :
    (Listener._read l env).ret = l.active_resource ∧
    (Listener._read l env).active = l.active_resource := by
  cases hg : Listener.get_load_balancer_arn l env with
  | mk arnOpt cs =>
    rw [hg] at hres
    simp only at hres
    subst hres
    cases e <;> simp [Listener._read, hg, herr]

/-- Witness for C4: the cached instance under a `ClientError` describe
outcome. -/
theorem C4_read_error_witness :
    (Listener.get_load_balancer_arn lCached envClientErr).1
        = some "arn:aws:elb:loadbalancer/1" ∧
    envClientErr.describeOutcome = Except.error ReadErr.clientError ∧
    (Listener._read lCached envClientErr).ret = lCached.active_resource ∧
    (Listener._read lCached envClientErr).active = lCached.active_resource := by
  refine ⟨rfl, rfl, ?_, ?_⟩
  · exact (C4_read_error lCached envClientErr _ ReadErr.clientError rfl rfl).1
  · exact (C4_read_error lCached envClientErr _ ReadErr.clientError rfl rfl).2

/-- Claim C8 (confirmed):  When the describe response's collection is
`L1 :: rest`, `_read` returns `L1` — with no constraint whatsoever
relating `L1`'s port or protocol to the spec's configured ones. -/
theorem C8_read_first (l : Listener) (env : AwsEnv) (lbArn : String)
    (resp L1 : JVal) (rest : List JVal)
    (hres : (Listener.get_load_balancer_arn l env).1 = some lbArn)
    (hok : env.describeOutcome = Except.ok resp)
    (hlist : pyGet resp "Listeners" = some (JVal.list (L1 :: rest))) :
    (Listener._read l env).ret = some L1 := by
  cases hg : Listener.get_load_balancer_arn l env with
  | mk arnOpt cs =>
    rw [hg] at hres
    simp only at hres
    subst hres
    simp [Listener._read, hg, hok, hlist]

/-- Witness for C8: the spec asks for port 80/HTTP, the collection holds
`[L1rec, L2rec]` with ports 443 and 8080, and `_read` still returns
`L1rec`. -/
theorem C8_read_first_witness :
    lPort80.port = some 80 ∧
    pyGet L1rec "Port" = some (JVal.int 443) ∧
    (Listener._read lPort80 envTwo).ret = some L1rec :=
  ⟨rfl, rfl,
    C8_read_first lPort80 envTwo "arn:aws:elb:loadbalancer/1" respTwo L1rec
      [L2rec] rfl rfl rfl⟩

/-- Computing `find?` of the create-call predicate skips a create-call-free
prefix. -/
theorem find_create_in (cs : List RemoteCall) (lbArn : String)
    (args : List (String × JVal))
    (hcs : ∀ c ∈ cs, isCreateCall c = false) :
    (cs ++ [RemoteCall.createListener lbArn args]).find? isCreateCall =
      some (RemoteCall.createListener lbArn args) := by
  rw [List.find?_append,
    List.find?_eq_none.mpr (fun x hx => by simp [hcs x hx])]
  rfl

/-- What `sentCreateActions` extracts from a trace whose single create
call carries `base ++ [("DefaultActions", v)]`, when `base` has no
`DefaultActions` entry of its own. -/
theorem sentCreateActions_eq (cs : List RemoteCall) (lbArn : String)
    (base : List (String × JVal)) (v : JVal)
    (hcs : ∀ c ∈ cs, isCreateCall c = false)
    (hbase : base.find? (fun p => p.1 == "DefaultActions") = none) :
    sentCreateActions
      (cs ++ [RemoteCall.createListener lbArn
        (base ++ [("DefaultActions", v)])]) = some v := by
  simp [sentCreateActions, find_create_in cs lbArn _ hcs,
    List.find?_append, hbase]

/-- Trace shape: `_read` issues at most the resolution call plus one describe call. -/
theorem read_calls_shape (l : Listener) (env : AwsEnv) :
    (Listener._read l env).calls = (Listener.get_load_balancer_arn l env).2 ∨
    ∃ lbArn,
      (Listener._read l env).calls =
        (Listener.get_load_balancer_arn l env).2
          ++ [RemoteCall.describeListeners lbArn] := by
  cases hg : Listener.get_load_balancer_arn l env with
  | mk arnOpt cs =>
    cases arnOpt with
    | none => left; simp [Listener._read, hg]
    | some lbArn =>
      right
      refine ⟨lbArn, ?_⟩
      cases hd : env.describeOutcome with
      | error e => cases e <;> simp [Listener._read, hg, hd]
      | ok resp =>
        cases hp : pyGet resp "Listeners" with
        | none => simp [Listener._read, hg, hd, hp]
        | some v => cases v <;> simp [Listener._read, hg, hd, hp]

/-- Filtering `_read`'s trace with a predicate false on resolution and
describe calls gives the empty list. -/
theorem read_calls_filter (l : Listener) (env : AwsEnv)
    (p : RemoteCall → Bool)
    (hlb : p RemoteCall.lbGetArnCall = false)
    (hdesc : ∀ s, p (RemoteCall.describeListeners s) = false) :
    ((Listener._read l env).calls.filter p) = [] := by
  have hres : ((Listener.get_load_balancer_arn l env).2.filter p) = [] := by
    rcases glba_calls l env with h | h <;> rw [h] <;> simp [hlb]
  rcases read_calls_shape l env with h | ⟨lbArn, h⟩
  · rw [h, hres]
  · rw [h, List.filter_append, hres]
    simp [hdesc]

/-- Helper fact: `get_arn` forwards `_read`'s trace and resulting cache unchanged. -/
theorem get_arn_eq (l : Listener) (env : AwsEnv) :
    (Listener.get_arn l env).calls = (Listener._read l env).calls ∧
    (Listener.get_arn l env).active = (Listener._read l env).active := by
  unfold Listener.get_arn
  cases hr : (Listener._read l env).ret <;> simp [hr]

/-- If `_create`'s trace contains a create call, the call's outcome fully
determines the result: exception ⇒ `False` with the cache untouched;
success ⇒ `True` with the full response cached. -/
theorem create_outcome_of_call (l : Listener) (env : AwsEnv)
    (hcall : hasCreateCall (Listener._create l env).calls = true) :
    (∀ e, env.createOutcome = Except.error e →
      (Listener._create l env).ret = false ∧
      (Listener._create l env).active = l.active_resource) ∧
    (∀ resp, env.createOutcome = Except.ok resp →
      (Listener._create l env).ret = true ∧
      (Listener._create l env).active = some resp) := by
  cases hg : Listener.get_load_balancer_arn l env with
  | mk arnOpt cs =>
    have hcs : cs = [] ∨ cs = [RemoteCall.lbGetArnCall] := by
      have h := glba_calls l env
      rw [hg] at h
      exact h
    cases arnOpt with
    | none =>
      exfalso
      rcases hcs with h | h <;> subst h <;>
        simp [Listener._create, hg, hasCreateCall, isCreateCall] at hcall
    | some lbArn =>
      cases hda : l.default_actions with
      | some das =>
        constructor
        · intro e he
          simp [Listener._create, hg, hda, Listener.doCreateCall, he]
        · intro resp hr
          simp [Listener._create, hg, hda, Listener.doCreateCall, hr]
      | none =>
        cases htg : l.target_group with
        | none =>
          exfalso
          rcases hcs with h | h <;> subst h <;>
            simp [Listener._create, hg, hda, htg, hasCreateCall,
              isCreateCall] at hcall
        | some u =>
          cases htga : env.tgGetArnResult with
          | none =>
            exfalso
            rcases hcs with h | h <;> subst h <;>
              simp [Listener._create, hg, hda, htg, htga, hasCreateCall,
                isCreateCall] at hcall
          | some tgArn =>
            constructor
            · intro e he
              simp [Listener._create, hg, hda, htg, htga,
                Listener.doCreateCall, he]
            · intro resp hr
              simp [Listener._create, hg, hda, htg, htga,
                Listener.doCreateCall, hr]

/-- Claim C5 (confirmed):  With a resolvable load-balancer ARN, `_create`'s
routing actions follow the priority order: explicit `default_actions`
sent verbatim; else a single synthesized forward action to the resolved
target-group ARN; else warn, return True, and send no create call. -/
theorem C5_create_action_priority (l : Listener) (env : AwsEnv)
    (lbArn : String)
    (hres : (Listener.get_load_balancer_arn l env).1 = some lbArn) :
    (∀ das, l.default_actions = some das →
      sentCreateActions (Listener._create l env).calls =
        some (JVal.list das)) ∧
    (∀ tgArn, l.default_actions = none → l.target_group = some () →
      env.tgGetArnResult = some tgArn →
      sentCreateActions (Listener._create l env).calls =
        some (JVal.list [JVal.dict [("Type", JVal.str "forward"),
                                    ("TargetGroupArn", JVal.str tgArn)]])) ∧
    (l.default_actions = none → l.target_group = none →
      (Listener._create l env).ret = true ∧
      ((Listener._create l env).calls.filter isCreateCall) = []) := by
  cases hg : Listener.get_load_balancer_arn l env with
  | mk arnOpt cs =>
    rw [hg] at hres
    simp only at hres
    subst hres
    have hcs : cs = [] ∨ cs = [RemoteCall.lbGetArnCall] := by
      have h := glba_calls l env
      rw [hg] at h
      exact h
    have hcsf : ∀ c ∈ cs, isCreateCall c = false := by
      rcases hcs with h | h <;> subst h <;> intro c hc <;>
        simp_all [isCreateCall]
    refine ⟨fun das hda => ?_, fun tgArn hda htg htga => ?_,
      fun hda htg => ?_⟩
    · have hcalls : (Listener._create l env).calls =
          cs ++ [RemoteCall.createListener lbArn
            (Listener.notNullArgsCreate l
              ++ [("DefaultActions", JVal.list das)])] := by
        simp [Listener._create, hg, hda, doCreateCall_calls]
      rw [hcalls]
      exact sentCreateActions_eq cs lbArn _ _ hcsf
        (notNullArgsCreate_no_actions l)
    · have hcsf' : ∀ c ∈ cs ++ [RemoteCall.tgGetArnCall],
          isCreateCall c = false := by
        intro c hc
        rcases List.mem_append.mp hc with h | h
        · exact hcsf c h
        · simp at h
          subst h
          rfl
      have h5 := sentCreateActions_eq (cs ++ [RemoteCall.tgGetArnCall])
        lbArn (Listener.notNullArgsCreate l)
        (JVal.list [JVal.dict [("Type", JVal.str "forward"),
                               ("TargetGroupArn", JVal.str tgArn)]])
        hcsf' (notNullArgsCreate_no_actions l)
      have hcalls : (Listener._create l env).calls =
          (cs ++ [RemoteCall.tgGetArnCall])
            ++ [RemoteCall.createListener lbArn
              (Listener.notNullArgsCreate l ++ [("DefaultActions", JVal.list
                [JVal.dict [("Type", JVal.str "forward"),
                            ("TargetGroupArn", JVal.str tgArn)]])])] := by
        simp [Listener._create, hg, hda, htg, htga, doCreateCall_calls]
      rw [hcalls]
      exact h5
    · constructor
      · simp [Listener._create, hg, hda, htg]
      · have hcalls : (Listener._create l env).calls = cs := by
          simp [Listener._create, hg, hda, htg]
        rw [hcalls]
        exact List.filter_eq_nil_iff.mpr (fun c hc => by simp [hcsf c hc])

/-- Witness for C5: explicit `default_actions = [actA]` is sent
verbatim. -/
theorem C5_create_action_priority_witness :
    (Listener.get_load_balancer_arn lActions envBase).1
        = some "arn:aws:elb:loadbalancer/1" ∧
    lActions.default_actions = some [actA] ∧
    sentCreateActions (Listener._create lActions envBase).calls
        = some (JVal.list [actA]) :=
  ⟨rfl, rfl,
    (C5_create_action_priority lActions envBase
      "arn:aws:elb:loadbalancer/1" rfl).1 [actA] rfl⟩

/-- Claim C6 (confirmed):  An unresolvable load-balancer ARN makes
`_create` report True with no create call; an unresolvable listener ARN
makes `_delete` report True with no delete call. -/
theorem C6_unresolvable_noop (l : Listener) (env : AwsEnv) :
    ((Listener.get_load_balancer_arn l env).1 = none →
      (Listener._create l env).ret = true ∧
      ((Listener._create l env).calls.filter isCreateCall) = []) ∧
    ((Listener.get_arn { l with active_resource := none } env).ret = none →
      (Listener._delete l env).ret = true ∧
      ((Listener._delete l env).calls.filter isDeleteCall) = []) := by
  constructor
  · intro h
    cases hg : Listener.get_load_balancer_arn l env with
    | mk arnOpt cs =>
      rw [hg] at h
      simp only at h
      subst h
      have hcs : cs = [] ∨ cs = [RemoteCall.lbGetArnCall] := by
        have h' := glba_calls l env
        rw [hg] at h'
        exact h'
      constructor
      · simp [Listener._create, hg]
      · have hcalls : (Listener._create l env).calls = cs := by
          simp [Listener._create, hg]
        rw [hcalls]
        rcases hcs with h' | h' <;> subst h' <;> rfl
  · intro h
    constructor
    · simp [Listener._delete, h]
    · have hcalls : (Listener._delete l env).calls =
          (Listener.get_arn { l with active_resource := none } env).calls := by
        simp [Listener._delete, h]
      rw [hcalls, (get_arn_eq _ _).1]
      exact read_calls_filter _ _ isDeleteCall rfl (fun s => rfl)

/-- Witness for C6: a spec with no resolvable load-balancer ARN
(create part) and the base spec against an empty remote collection
(delete part). -/
theorem C6_unresolvable_noop_witness :
    ((Listener.get_load_balancer_arn lNoArn envBase).1 = none ∧
      (Listener._create lNoArn envBase).ret = true) ∧
    ((Listener.get_arn { lBase with active_resource := none } envEmpty).ret
        = none ∧
      (Listener._delete lBase envEmpty).ret = true ∧
      ((Listener._delete lBase envEmpty).calls.filter isDeleteCall) = []) :=
  ⟨⟨rfl, ((C6_unresolvable_noop lNoArn envBase).1 rfl).1⟩,
   ⟨rfl, ((C6_unresolvable_noop lBase envEmpty).2 rfl).1,
     ((C6_unresolvable_noop lBase envEmpty).2 rfl).2⟩⟩

/-- Claim C7 (confirmed):  Whenever `_create` actually issues the remote
create call, an exception gives False with `active_resource` exactly as
before, and success caches the full response and gives True. -/
theorem C7_create_outcome (l : Listener) (env : AwsEnv)
    (hcall : hasCreateCall (Listener._create l env).calls = true) :
    (∀ e, env.createOutcome = Except.error e →
      (Listener._create l env).ret = false ∧
      (Listener._create l env).active = l.active_resource) ∧
    (∀ resp, env.createOutcome = Except.ok resp →
      (Listener._create l env).ret = true ∧
      (Listener._create l env).active = some resp) :=
  create_outcome_of_call l env hcall

/-- Witness for C7: the explicit-actions spec under a successful create
call. -/
theorem C7_create_outcome_witness :
    hasCreateCall (Listener._create lActions envBase).calls = true ∧
    envBase.createOutcome = Except.ok respOne ∧
    (Listener._create lActions envBase).ret = true ∧
    (Listener._create lActions envBase).active = some respOne := by
  refine ⟨rfl, rfl, ?_, ?_⟩
  · exact ((C7_create_outcome lActions envBase rfl).2 respOne rfl).1
  · exact ((C7_create_outcome lActions envBase rfl).2 respOne rfl).2

/-- Claim C9 (confirmed):  With a resolvable load-balancer ARN, no
`default_actions`, and a target group whose ARN cannot be resolved,
`_create` returns False — a hard failure — without issuing a create call
and leaving the cache untouched. -/
theorem C9_tg_hard_failure (l : Listener) (env : AwsEnv) (lbArn : String)
    (hres : (Listener.get_load_balancer_arn l env).1 = some lbArn)
    (hda : l.default_actions = none)
    (htg : l.target_group = some ())
    (htga : env.tgGetArnResult = none) :
    (Listener._create l env).ret = false ∧
    (Listener._create l env).active = l.active_resource ∧
    ((Listener._create l env).calls.filter isCreateCall) = [] := by
  cases hg : Listener.get_load_balancer_arn l env with
  | mk arnOpt cs =>
    rw [hg] at hres
    simp only at hres
    subst hres
    have hcs : cs = [] ∨ cs = [RemoteCall.lbGetArnCall] := by
      have h := glba_calls l env
      rw [hg] at h
      exact h
    refine ⟨?_, ?_, ?_⟩
    · simp [Listener._create, hg, hda, htg, htga]
    · simp [Listener._create, hg, hda, htg, htga]
    · have hcalls : (Listener._create l env).calls =
          cs ++ [RemoteCall.tgGetArnCall] := by
        simp [Listener._create, hg, hda, htg, htga]
      rw [hcalls]
      rcases hcs with h | h <;> subst h <;> rfl

/-- Witness for C9: the target-group spec when the oracle cannot resolve
the target-group ARN. -/
theorem C9_tg_hard_failure_witness :
    (Listener.get_load_balancer_arn lTG envBase).1
        = some "arn:aws:elb:loadbalancer/1" ∧
    lTG.default_actions = none ∧
    lTG.target_group = some () ∧
    envBase.tgGetArnResult = none ∧
    (Listener._create lTG envBase).ret = false ∧
    ((Listener._create lTG envBase).calls.filter isCreateCall) = [] := by
  refine ⟨rfl, rfl, rfl, rfl, ?_, ?_⟩
  · exact (C9_tg_hard_failure lTG envBase "arn:aws:elb:loadbalancer/1"
      rfl rfl rfl rfl).1
  · exact (C9_tg_hard_failure lTG envBase "arn:aws:elb:loadbalancer/1"
      rfl rfl rfl rfl).2.2

/-- Claim C10 (confirmed):  The cache is not shape-uniform: a successful
create or update stores the whole wrapper response (from which the
`ListenerArn` extraction of `get_arn` yields nothing), while a successful
read of a non-empty collection stores the single listener record (from
which the same extraction yields the ARN). -/
theorem C10_cache_shape (l : Listener) (env : AwsEnv) (lbArn : String)
    (resp x a : JVal) (rest : List JVal)
    (hres : (Listener.get_load_balancer_arn l env).1 = some lbArn)
    (hcok : env.createOutcome = Except.ok resp)
    (hmok : env.modifyOutcome = Except.ok resp)
    (hdok : env.describeOutcome = Except.ok resp)
    (hlist : pyGet resp "Listeners" = some (JVal.list (x :: rest)))
    (hwrap : pyGet resp "ListenerArn" = none)
    (hfield : pyGet x "ListenerArn" = some a)
    (hcall : hasCreateCall (Listener._create l env).calls = true) :
    ((Listener._create l env).active = some resp ∧
      cachedListenerArn (Listener._create l env).active = none) ∧
    ((Listener._update l env).active = some resp ∧
      cachedListenerArn (Listener._update l env).active = none) ∧
    ((Listener._read l env).active = some x ∧
      cachedListenerArn (Listener._read l env).active = some a) := by
  have hcreate := ((create_outcome_of_call l env hcall).2 resp hcok).2
  have hupd : (Listener._update l env).active = some resp := by
    simp [Listener._update, hmok]
  have hread : (Listener._read l env).active = some x := by
    cases hg : Listener.get_load_balancer_arn l env with
    | mk arnOpt cs =>
      rw [hg] at hres
      simp only at hres
      subst hres
      simp [Listener._read, hg, hdok, hlist]
  refine ⟨⟨hcreate, ?_⟩, ⟨hupd, ?_⟩, ⟨hread, ?_⟩⟩
  · rw [hcreate]
    simp [cachedListenerArn, hwrap]
  · rw [hupd]
    simp [cachedListenerArn, hwrap]
  · rw [hread]
    simp [cachedListenerArn, hfield]

/-- Witness for C10: after create the cache holds the wrapper `respOne`
(no extractable ARN); after read it holds `L1rec` (ARN extractable). -/
theorem C10_cache_shape_witness :
    pyGet respOne "ListenerArn" = none ∧
    pyGet L1rec "ListenerArn" = some (JVal.str "arn:aws:elb:listener/1") ∧
    (Listener._create lActions envBase).active = some respOne ∧
    cachedListenerArn (Listener._create lActions envBase).active = none ∧
    (Listener._read lActions envBase).active = some L1rec ∧
    cachedListenerArn (Listener._read lActions envBase).active
        = some (JVal.str "arn:aws:elb:listener/1") := by
  have h := C10_cache_shape lActions envBase "arn:aws:elb:loadbalancer/1"
    respOne L1rec (JVal.str "arn:aws:elb:listener/1") []
    rfl rfl rfl rfl rfl rfl rfl rfl
  exact ⟨rfl, rfl, h.1.1, h.1.2, h.2.2.1, h.2.2.2⟩

/-- Witness for C1: the bug theorem applied at the failing input. -/
theorem C1_update_bug_witness :
    (Listener._update lBase envC1).calls =
      [RemoteCall.modifyListener ListenerArnArg.boundMethod
        (Listener.notNullArgsUpdate lBase)] :=
  (C1_update_bug.1 lBase envC1).1

/-- Witness for C3: the amended cache equation at the base instance. -/
theorem C3_delete_cache_witness :
    (Listener._delete lBase envBase).active =
      (Listener._read { lBase with active_resource := none } envBase).active :=
  C3_delete_cache lBase envBase
